import Mathlib

/-!
Shallow embedding of the referral bot: the persistence layer of
`src/database.py` and the handler logic of `src/bot.py`.

Modelling conventions:
* the SQLite tables are lists of rows; `INSERT` appends, `UPDATE` maps,
  `DELETE` filters, `SELECT ... WHERE key = ?` is `List.find?`;
* SQL timestamps are integers (seconds); SQLite compares its text
  timestamps chronologically, which integer order mirrors;
* Python floats are parsed into the decimal literal structure `PyFloat`
  whose value semantics is `PyFloat.toRat : PyFloat → ℚ` (the flows only
  ever feed finite decimal literals to `float`);
* the Telegram transport, keyboards and message texts are presentation
  and are reduced to the `Reply` tag each handler emits;
* the membership oracle of `check_subscription` is an `Option String`
  argument: `some status` for a successful `get_chat_member` call and
  `none` for a raised exception.
-/

/-- ASCII whitespace recognised by the modelled Python string operations
(`str.strip`, `str.split`). -/
def isPySpace (c : Char) : Bool :=
  c.toNat == 32 || c.toNat == 9 || c.toNat == 10 ||
    c.toNat == 13 || c.toNat == 11 || c.toNat == 12

/-- ASCII decimal digit. -/
def isDigitChar (c : Char) : Bool :=
  48 ≤ c.toNat && c.toNat ≤ 57

/-- Drop trailing whitespace. -/
def rdropSpaces (l : List Char) : List Char :=
  (l.reverse.dropWhile isPySpace).reverse

/-- Python `str.strip()` on a character list. -/
def stripChars (l : List Char) : List Char :=
  rdropSpaces (l.dropWhile isPySpace)

/-- Python `str.strip()`. -/
def pyStrip (s : String) : String := String.mk (stripChars s.data)

/-- Python `str.replace("@", "")`: removes every at sign. -/
def dropAtSigns (s : String) : String :=
  String.mk (s.data.filter (fun c => c != '@'))

/-- Python `str.replace("ref_", "")`: removes every left-to-right
non-overlapping occurrence of `ref_`. -/
def stripRefChars : List Char → List Char
  | 'r' :: 'e' :: 'f' :: '_' :: rest => stripRefChars rest
  | c :: cs => c :: stripRefChars cs
  | [] => []

/-- `ref_arg.replace("ref_", "")` from `cmd_start`. -/
def stripRefAll (s : String) : String := String.mk (stripRefChars s.data)

/-- `ref_arg.startswith("ref_")` from `cmd_start`. -/
def hasRefTag (s : String) : Bool :=
  match s.data with
  | 'r' :: 'e' :: 'f' :: '_' :: _ => true
  | _ => false

/-- Helper for Python `str.split()`: splits at whitespace runs, dropping
empty pieces; `acc` is the current word reversed. -/
def wordsAux : List Char → List Char → List (List Char)
  | [], acc => if acc.isEmpty then [] else [acc.reverse]
  | c :: cs, acc =>
    if isPySpace c then
      if acc.isEmpty then wordsAux cs [] else acc.reverse :: wordsAux cs []
    else wordsAux cs (c :: acc)

/-- Python `str.split()` with no argument. -/
def pySplit (s : String) : List String := (wordsAux s.data []).map String.mk

/-- Decimal value of a digit string. -/
def digitsToNat (ds : List Char) : Nat :=
  ds.foldl (fun a c => a * 10 + (c.toNat - 48)) 0

/-- Split an optional leading sign off a numeric literal; anything else
leaves the list untouched. -/
def signSplit (l : List Char) : Bool × List Char :=
  match l with
  | c :: r => if c == '-' then (true, r) else if c == '+' then (false, r) else (false, c :: r)
  | [] => (false, [])

/-- `pyInt` on the character list. -/
def pyIntChars (l : List Char) : Option Int :=
  let signed := signSplit (stripChars l)
  if signed.2.isEmpty then none
  else if signed.2.all isDigitChar then
    some (if signed.1 then -(digitsToNat signed.2 : Int) else (digitsToNat signed.2 : Int))
  else none

/-- Python `int(str)`: optional surrounding whitespace, optional sign,
then a nonempty digit string; anything else raises `ValueError`,
modelled as `none`. -/
def pyInt (s : String) : Option Int := pyIntChars s.data

/-- A finite decimal literal accepted by Python `float(str)`:
sign, mantissa digits with the decimal point removed, and the number of
fractional digits.  Its numeric value is `PyFloat.toRat`. -/
structure PyFloat where
  neg : Bool
  mant : Nat
  scale : Nat
deriving Repr, DecidableEq

/-- Value of a parsed decimal literal. -/
def PyFloat.toRat (p : PyFloat) : ℚ :=
  (if p.neg then -1 else 1) * (p.mant : ℚ) / (10 : ℚ) ^ p.scale

/-- `pyFloat` on the character list. -/
def pyFloatChars (l : List Char) : Option PyFloat :=
  let signBody := signSplit (stripChars l)
  let ip := signBody.2.takeWhile isDigitChar
  let rest := signBody.2.dropWhile isDigitChar
  match rest with
  | [] => if ip.isEmpty then none else some ⟨signBody.1, digitsToNat ip, 0⟩
  | '.' :: frac =>
    if frac.all isDigitChar && !(ip.isEmpty && frac.isEmpty) then
      some ⟨signBody.1, digitsToNat (ip ++ frac), frac.length⟩
    else none
  | _ => none

/-- Python `float(str)` for finite decimal literals
`[sign]digits[.digits]` (exponents, underscores and `inf`/`nan` are
outside the inputs the purchase flow is specified on). -/
def pyFloat (s : String) : Option PyFloat := pyFloatChars s.data

/-- A row of the `users` table. -/
structure UserRow where
  user_id : Int
  username : Option String
  first_name : Option String
  last_name : Option String
  is_subscribed : Bool
  registered_at : Int
  ref_partner_code : Option String
deriving Repr, DecidableEq

/-- A row of the `partners` table (`user_id` is nullable; `add_partner`
writes `0` when the handle has no known account). -/
structure PartnerRow where
  partner_code : String
  username : String
  user_id : Option Int
  created_at : Int
deriving Repr, DecidableEq

/-- A row of the `purchases` table. -/
structure PurchaseRow where
  id : Nat
  user_id : Int
  amount : ℚ
  comment : String
  created_at : Int
deriving Repr, DecidableEq

/-- The whole SQLite database. -/
structure Store where
  users : List UserRow
  partners : List PartnerRow
  purchases : List PurchaseRow
deriving Repr, DecidableEq

/-- `SELECT ... FROM users WHERE user_id = ?`. -/
def findUser (st : Store) (uid : Int) : Option UserRow :=
  st.users.find? (fun u => u.user_id == uid)

/-- The existence probe at the top of `Database.add_user`. -/
def userExists (st : Store) (uid : Int) : Bool :=
  st.users.any (fun u => u.user_id == uid)

/-- `Database.add_user`: inserts the row only when no row with this
`user_id` exists; otherwise the call changes nothing. -/
def add_user (st : Store) (now uid : Int) (username first_name last_name : Option String)
    (ref_partner_code : Option String) : Store :=
  if userExists st uid then st
  else { st with users := st.users ++
    [{ user_id := uid, username := username, first_name := first_name,
       last_name := last_name, is_subscribed := false, registered_at := now,
       ref_partner_code := ref_partner_code }] }

/-- `Database.update_subscription`: overwrites the flag of every row with
this `user_id`. -/
def update_subscription (st : Store) (uid : Int) (is_sub : Bool) : Store :=
  { st with users := st.users.map (fun u =>
      if u.user_id == uid then { u with is_subscribed := is_sub } else u) }

/-- `Database.get_partner_by_code`. -/
def get_partner_by_code (st : Store) (code : String) : Option PartnerRow :=
  st.partners.find? (fun p => p.partner_code == code)

/-- `Database.get_partner_by_username`. -/
def get_partner_by_username (st : Store) (uname : String) : Option PartnerRow :=
  st.partners.find? (fun p => p.username == uname)

/-- `Database.get_user_by_username` (SQL `=` never matches a NULL
`username`). -/
def get_user_by_username (st : Store) (uname : String) : Option UserRow :=
  st.users.find? (fun u => u.username == some uname)

/-- `Database.add_partner`: the `INSERT` raises `IntegrityError` when the
primary key `partner_code` already exists, reported as `false`. -/
def add_partner (st : Store) (now : Int) (code uname : String) (uid : Int) : Store × Bool :=
  if st.partners.any (fun p => p.partner_code == code) then (st, false)
  else ({ st with partners := st.partners ++
    [{ partner_code := code, username := uname, user_id := some uid, created_at := now }] },
    true)

/-- `Database.remove_partner`: deletes every row with the handle and
reports whether one existed. -/
def remove_partner (st : Store) (uname : String) : Store × Bool :=
  if st.partners.any (fun p => p.username == uname) then
    ({ st with partners := st.partners.filter (fun p => p.username != uname) }, true)
  else (st, false)

/-- `Database.update_partner_user_id`:
`UPDATE partners SET user_id = ? WHERE username = ? AND (user_id = 0 OR user_id IS NULL)`. -/
def update_partner_user_id (st : Store) (uname : String) (uid : Int) : Store :=
  { st with partners := st.partners.map (fun p =>
      if p.username == uname && (p.user_id == some 0 || p.user_id == none) then
        { p with user_id := some uid }
      else p) }

/-- `Database.add_purchase`: the insert itself cannot fail in the model,
so it always reports `true` (the `except` branch covers a store outage). -/
def add_purchase (st : Store) (now uid : Int) (amount : ℚ) (comment : String) : Store × Bool :=
  ({ st with purchases := st.purchases ++
    [{ id := st.purchases.length + 1, user_id := uid, amount := amount,
       comment := comment, created_at := now }] },
    true)

/-- `Database.get_user_by_id_or_username`: `int(query)` decides the
branch; the at sign is stripped only in the username branch. -/
def get_user_by_id_or_username (st : Store) (q : String) : Option UserRow :=
  match pyInt q with
  | some n => st.users.find? (fun u => u.user_id == n)
  | none => st.users.find? (fun u => u.username == some (dropAtSigns q))

/-- The four window counts of `Database.get_partner_stats`. -/
structure PartnerStats where
  today : Nat
  week : Nat
  month : Nat
  total : Nat
deriving Repr, DecidableEq

/-- `COUNT(*) FROM users WHERE ref_partner_code = ? AND registered_at >= cutoff`. -/
def countRefSince (st : Store) (code : String) (cutoff : Int) : Nat :=
  (st.users.filter (fun u =>
    u.ref_partner_code == some code && decide (cutoff ≤ u.registered_at))).length

/-- `COUNT(*) FROM users WHERE ref_partner_code = ?`. -/
def countRefAll (st : Store) (code : String) : Nat :=
  (st.users.filter (fun u => u.ref_partner_code == some code)).length

/-- Seconds in a day. -/
def secondsPerDay : Int := 86400

/-- SQLite `date('now')` as a cutoff: the start of the current day. -/
def startOfDay (now : Int) : Int := now - now % secondsPerDay

/-- `Database.get_partner_stats`: four independent recounts against the
cutoffs `date('now')`, `datetime('now','-7 days')`,
`datetime('now','-30 days')` and no cutoff. -/
def get_partner_stats (st : Store) (code : String) (now : Int) : PartnerStats :=
  { today := countRefSince st code (startOfDay now)
    week := countRefSince st code (now - 7 * secondsPerDay)
    month := countRefSince st code (now - 30 * secondsPerDay)
    total := countRefAll st code }

/-- `check_subscription` in `bot.py`: `some status` is a successful
`get_chat_member` answer, `none` a raised exception (caught, logged and
degraded to `false`). -/
def check_subscription (oracle : Option String) : Bool :=
  match oracle with
  | some s => s == "member" || s == "administrator" || s == "creator"
  | none => false

/-- The body of `check_subscription_callback`: compute the verdict and
persist it against the user row. -/
def check_subscription_callback (st : Store) (uid : Int) (oracle : Option String) :
    Bool × Store :=
  let is_sub := check_subscription oracle
  (is_sub, update_subscription st uid is_sub)

/-- The referral-token parse of `cmd_start` (lines 102-114): second
whitespace token of the message, the `ref_` prefix test, the partner
lookup.  Returns the attribution to store and whether the unknown-code
warning was logged. -/
def startRefCode (st : Store) (text : String) : Option String × Bool :=
  match (pySplit text)[1]? with
  | none => (none, false)
  | some arg =>
    if hasRefTag arg then
      match get_partner_by_code st (stripRefAll arg) with
      | none => (none, true)
      | some _ => (stripRefAll arg, false)
    else (none, false)

/-- The registration portion of `cmd_start` (lines 92-118): parse the
referral argument, then `add_user`.  Second component: the unknown-code
warning flag. -/
def cmd_start_registration (st : Store) (now uid : Int)
    (username first_name last_name : Option String) (text : String) : Store × Bool :=
  let parsed := startRefCode st text
  (add_user st now uid username first_name last_name parsed.1, parsed.2)

/-- All database writes of `cmd_start`: registration, then the lazy
partner link (only when the contact has a handle), then the subscription
check and overwrite. -/
def cmd_start (st : Store) (now uid : Int)
    (username first_name last_name : Option String) (text : String)
    (oracle : Option String) : Store :=
  let st1 := (cmd_start_registration st now uid username first_name last_name text).1
  let st2 :=
    match username with
    | some uname => update_partner_user_id st1 uname uid
    | none => st1
  update_subscription st2 uid (check_subscription oracle)

/-- The FSM states of the admin conversation flows, with the data
`state.update_data` accumulates. -/
inductive ConvState where
  | idle
  | waiting_username
  | waiting_delete_username
  | waiting_query
  | waiting_user_input
  | waiting_amount (user_id : Int) (username : Option String) (first_name : Option String)
  | waiting_comment (user_id : Int) (username : Option String) (first_name : Option String)
      (amount : ℚ)
deriving Repr, DecidableEq

/-- The kind of answer a text handler sends (message texts are
presentation and are reduced to this tag). -/
inductive Reply where
  | accessDenied
  | alreadyPartner
  | partnerAdded
  | partnerAddFailed
  | partnerDeleted
  | partnerNotFound
  | searchResults
  | userNotFoundRetry
  | askAmount
  | amountReprompt
  | askComment
  | purchaseAdded
  | ignored
deriving Repr, DecidableEq

/-- `partner_add_process`: the admin gate, the duplicate-handle check,
the opportunistic user lookup, `add_partner`, then `state.clear()`.
`freshCode` is the value `generate_partner_code()` drew. -/
def partner_add_process (isAdmin : Bool) (now : Int) (freshCode text : String)
    (st : Store) : Store × ConvState × Reply :=
  if !isAdmin then (st, ConvState.idle, Reply.accessDenied)
  else
    let uname := dropAtSigns (pyStrip text)
    match get_partner_by_username st uname with
    | some _ => (st, ConvState.idle, Reply.alreadyPartner)
    | none =>
      let uid : Int :=
        match get_user_by_username st uname with
        | some u => u.user_id
        | none => 0
      let res := add_partner st now freshCode uname uid
      (res.1, ConvState.idle, if res.2 then Reply.partnerAdded else Reply.partnerAddFailed)

/-- `partner_delete_process`: the admin gate, `remove_partner`, then
`state.clear()`. -/
def partner_delete_process (isAdmin : Bool) (text : String) (st : Store) :
    Store × ConvState × Reply :=
  if !isAdmin then (st, ConvState.idle, Reply.accessDenied)
  else
    let uname := dropAtSigns (pyStrip text)
    let res := remove_partner st uname
    (res.1, ConvState.idle, if res.2 then Reply.partnerDeleted else Reply.partnerNotFound)

/-- `users_search_process`: the admin gate, a read-only search, then
`state.clear()` (the result listing is presentation). -/
def users_search_process (isAdmin : Bool) (text : String) (st : Store) :
    Store × ConvState × Reply :=
  if !isAdmin then (st, ConvState.idle, Reply.accessDenied)
  else (st, ConvState.idle, Reply.searchResults)

/-- `purchase_user_input`: the admin gate, then user resolution; a failed
resolution re-prompts and keeps the state. -/
def purchase_user_input (isAdmin : Bool) (text : String) (st : Store) :
    Store × ConvState × Reply :=
  if !isAdmin then (st, ConvState.idle, Reply.accessDenied)
  else
    match get_user_by_id_or_username st (pyStrip text) with
    | none => (st, ConvState.waiting_user_input, Reply.userNotFoundRetry)
    | some u =>
      (st, ConvState.waiting_amount u.user_id u.username u.first_name, Reply.askAmount)

/-- `purchase_amount_input`: the admin gate, then `float(text.strip())`;
a parse failure or a non-positive value re-prompts in the same state with
the accumulated data untouched. -/
def purchase_amount_input (isAdmin : Bool) (text : String) (uid : Int)
    (uname first_name : Option String) (st : Store) : Store × ConvState × Reply :=
  if !isAdmin then (st, ConvState.idle, Reply.accessDenied)
  else
    match pyFloat (pyStrip text) with
    | none => (st, ConvState.waiting_amount uid uname first_name, Reply.amountReprompt)
    | some p =>
      if p.toRat ≤ 0 then
        (st, ConvState.waiting_amount uid uname first_name, Reply.amountReprompt)
      else
        (st, ConvState.waiting_comment uid uname first_name p.toRat, Reply.askComment)

/-- `purchase_comment_input`: the admin gate, the single-dash sentinel,
`add_purchase`, then `state.clear()`. -/
def purchase_comment_input (isAdmin : Bool) (now : Int) (text : String) (uid : Int)
    (uname first_name : Option String) (amount : ℚ) (st : Store) :
    Store × ConvState × Reply :=
  if !isAdmin then (st, ConvState.idle, Reply.accessDenied)
  else
    let c0 := pyStrip text
    let comment := if c0 == "-" then "" else c0
    let res := add_purchase st now uid amount comment
    (res.1, ConvState.idle, Reply.purchaseAdded)

/-- Dispatch of a free-text reply to the handler registered for the
current FSM state (`@dp.message(<state>)` routing in `bot.py`). -/
def handleAdminText (isAdmin : Bool) (now : Int) (freshCode text : String)
    (conv : ConvState) (st : Store) : Store × ConvState × Reply :=
  match conv with
  | ConvState.idle => (st, ConvState.idle, Reply.ignored)
  | ConvState.waiting_username => partner_add_process isAdmin now freshCode text st
  | ConvState.waiting_delete_username => partner_delete_process isAdmin text st
  | ConvState.waiting_query => users_search_process isAdmin text st
  | ConvState.waiting_user_input => purchase_user_input isAdmin text st
  | ConvState.waiting_amount uid un fn => purchase_amount_input isAdmin text uid un fn st
  | ConvState.waiting_comment uid un fn a =>
      purchase_comment_input isAdmin now text uid un fn a st

/-- The pagination controls of the admin list views.  `offset` is what is
passed to the store query (or the Python slice), the two flags say which
navigation buttons are put on the keyboard. -/
structure NavView where
  offset : Nat
  hasPrev : Bool
  hasNext : Bool
deriving Repr, DecidableEq

/-- The shared shape of `show_users_page` / `show_purchases_page`:
`offset = page * limit`; the navigation block is built only under
`total > limit`, and inside it the back button needs `page > 0` and the
forward button needs `(page + 1) * limit < total`. -/
def pageNav (limit total page : Nat) : NavView :=
  { offset := page * limit
    hasPrev := if total > limit then decide (page > 0) else false
    hasNext := if total > limit then decide ((page + 1) * limit < total) else false }

/-- `show_users_page` (page size 15). -/
def show_users_page_nav (total page : Nat) : NavView := pageNav 15 total page

/-- `show_purchases_page` (page size 10). -/
def show_purchases_page_nav (total page : Nat) : NavView := pageNav 10 total page

/-! ## Helper lemmas -/

theorem length_filter_mono {α : Type} {p q : α → Bool}
    (h : ∀ a, p a = true → q a = true) (l : List α) :
    (l.filter p).length ≤ (l.filter q).length := by
  induction l with
  | nil => simp
  | cons a l ih =>
    rw [List.filter_cons, List.filter_cons]
    by_cases hp : p a = true
    · rw [if_pos hp, if_pos (h a hp)]
      simpa using ih
    · rw [if_neg hp]
      by_cases hq : q a = true
      · rw [if_pos hq]
        exact le_trans ih (by simp)
      · rw [if_neg hq]
        exact ih

theorem userExists_add_user (st : Store) (now uid : Int)
    (un fn ln ref : Option String) :
    userExists (add_user st now uid un fn ln ref) uid = true := by
  by_cases h : userExists st uid = true
  · rw [add_user, if_pos h]
    exact h
  · rw [add_user, if_neg h]
    unfold userExists
    rw [List.any_append]
    simp

theorem add_user_of_exists (st : Store) (now uid : Int)
    (un fn ln ref : Option String) (h : userExists st uid = true) :
    add_user st now uid un fn ln ref = st := by
  simp [add_user, h]

theorem countRefSince_mono (st : Store) (code : String) {c1 c2 : Int}
    (h : c2 ≤ c1) : countRefSince st code c1 ≤ countRefSince st code c2 := by
  apply length_filter_mono
  intro u hu
  simp only [Bool.and_eq_true, decide_eq_true_eq] at hu ⊢
  exact ⟨hu.1, le_trans h hu.2⟩

theorem countRefSince_le_countRefAll (st : Store) (code : String) (c : Int) :
    countRefSince st code c ≤ countRefAll st code := by
  apply length_filter_mono
  intro u hu
  simp only [Bool.and_eq_true] at hu
  exact hu.1

theorem find?_map_comm {α : Type} (f : α → α) (pr : α → Bool) (l : List α)
    (h : ∀ a, pr (f a) = pr a) : (l.map f).find? pr = (l.find? pr).map f := by
  induction l with
  | nil => rfl
  | cons a l ih =>
    simp only [List.map_cons, List.find?, h a]
    cases pr a <;> simp [ih]

/-! ## C1 -/

/-- C1: first-touch attribution is idempotent.  Running the `/start`
registration path (`cmd_start_registration`: referral parse plus
`add_user`) a second time for the same account id, with arbitrary other
arguments, leaves the store — in particular every field of that user's
row, including `ref_partner_code` — exactly as it was after the first
run. -/
theorem registration_first_touch_idempotent (st : Store) (now1 now2 uid : Int)
    (u1 f1 l1 u2 f2 l2 : Option String) (t1 t2 : String) :
    (cmd_start_registration
        (cmd_start_registration st now1 uid u1 f1 l1 t1).1 now2 uid u2 f2 l2 t2).1
      = (cmd_start_registration st now1 uid u1 f1 l1 t1).1 := by
  have hex : userExists (cmd_start_registration st now1 uid u1 f1 l1 t1).1 uid = true := by
    unfold cmd_start_registration
    exact userExists_add_user ..
  unfold cmd_start_registration
  exact add_user_of_exists _ _ _ _ _ _ _ hex

/-! ## C2 -/

/-- C2: a first contact whose start argument carries a `ref_` token with
a code no partner row has still creates the user row, stores no
attribution (`ref_partner_code = none`), and reports the unknown code
through the warning flag rather than failing. -/
theorem unknown_ref_code_registers_without_attribution (st : Store)
    (now uid : Int) (un fn ln : Option String) (text arg : String)
    (hfresh : userExists st uid = false)
    (htok : (pySplit text)[1]? = some arg)
    (hpre : hasRefTag arg = true)
    (hunknown : get_partner_by_code st (stripRefAll arg) = none) :
    (cmd_start_registration st now uid un fn ln text).2 = true ∧
    findUser (cmd_start_registration st now uid un fn ln text).1 uid
      = some { user_id := uid, username := un, first_name := fn, last_name := ln,
               is_subscribed := false, registered_at := now, ref_partner_code := none } := by
  have href : startRefCode st text = (none, true) := by
    simp [startRefCode, htok, hpre, hunknown]
  have hnone : st.users.find? (fun u => u.user_id == uid) = none := by
    rw [List.find?_eq_none]
    intro u hu
    intro hbeq
    have : st.users.any (fun u => u.user_id == uid) = true :=
      List.any_of_mem hu hbeq
    rw [userExists] at hfresh
    simp [this] at hfresh
  constructor
  · simp [cmd_start_registration, href]
  · simp only [cmd_start_registration, href, add_user, hfresh, Bool.false_eq_true,
      if_false, findUser]
    rw [List.find?_append, hnone]
    simp

/-- Witness for C2 at a concrete first contact. -/
theorem unknown_ref_code_witness :
    (cmd_start_registration ⟨[], [], []⟩ 5 7 none none none "/start ref_ABCDEF12").2 = true ∧
    findUser (cmd_start_registration ⟨[], [], []⟩ 5 7 none none none "/start ref_ABCDEF12").1 7
      = some { user_id := 7, username := none, first_name := none, last_name := none,
               is_subscribed := false, registered_at := 5, ref_partner_code := none } :=
  unknown_ref_code_registers_without_attribution ⟨[], [], []⟩ 5 7 none none none
    "/start ref_ABCDEF12" "ref_ABCDEF12" (by decide) (by decide) (by decide) (by decide)

/-! ## C3 -/

/-- C3: the four counts of `get_partner_stats` are nested,
`today ≤ week ≤ month ≤ total`, for every store, partner code and
current time, because the cutoffs start-of-day, now−7d, now−30d and
unbounded are nested. -/
theorem partner_stats_windows_nested (st : Store) (code : String) (now : Int) :
    (get_partner_stats st code now).today ≤ (get_partner_stats st code now).week ∧
    (get_partner_stats st code now).week ≤ (get_partner_stats st code now).month ∧
    (get_partner_stats st code now).month ≤ (get_partner_stats st code now).total := by
  have h0 : (0 : Int) ≤ now % secondsPerDay := Int.emod_nonneg now (by decide)
  have h1 : now % secondsPerDay < secondsPerDay := Int.emod_lt_of_pos now (by decide)
  refine ⟨?_, ?_, ?_⟩
  · apply countRefSince_mono
    unfold startOfDay secondsPerDay at *
    omega
  · apply countRefSince_mono
    unfold secondsPerDay at *
    omega
  · exact countRefSince_le_countRefAll ..

/-! ## C4 -/

/-- C4: a free-text reply from a non-administrator, arriving in any of
the awaiting states of the admin conversation machine, is rejected: the
state is cleared to idle and the store is returned unchanged (no partner
added or deleted, no purchase inserted). -/
theorem non_admin_reply_rejected (now : Int) (freshCode text : String)
    (conv : ConvState) (st : Store) (h : conv ≠ ConvState.idle) :
    handleAdminText false now freshCode text conv st
      = (st, ConvState.idle, Reply.accessDenied) := by
  cases conv with
  | idle => exact absurd rfl h
  | waiting_username => simp [handleAdminText, partner_add_process]
  | waiting_delete_username => simp [handleAdminText, partner_delete_process]
  | waiting_query => simp [handleAdminText, users_search_process]
  | waiting_user_input => simp [handleAdminText, purchase_user_input]
  | waiting_amount uid un fn => simp [handleAdminText, purchase_amount_input]
  | waiting_comment uid un fn a => simp [handleAdminText, purchase_comment_input]

/-- Witness for C4: a non-admin reply inside the delete-partner flow. -/
theorem non_admin_reply_rejected_witness :
    handleAdminText false 0 "AAAA1111" "bob" ConvState.waiting_delete_username ⟨[], [], []⟩
      = (⟨[], [], []⟩, ConvState.idle, Reply.accessDenied) :=
  non_admin_reply_rejected 0 "AAAA1111" "bob" ConvState.waiting_delete_username ⟨[], [], []⟩
    (by decide)

/-! ## C5 -/

/-- C5 counterexample: with 5 users (one page of 15) and page index 1,
the claim `hasPrev iff pageIndex > 0` demands a previous-page control,
but `show_users_page` builds navigation buttons only when
`total > limit`, so none is offered. -/
theorem users_page_prev_claim_counterexample :
    ¬ (((show_users_page_nav 5 1).hasPrev = true) ↔ 0 < 1) := by decide

theorem pageNav_spec (limit total page : Nat) (hl : 0 < limit) :
    (pageNav limit total page).offset = page * limit ∧
    ((pageNav limit total page).hasPrev = true ↔ 0 < page ∧ limit < total) ∧
    ((pageNav limit total page).hasNext = true ↔ (page + 1) * limit < total) := by
  refine ⟨rfl, ?_, ?_⟩
  · unfold pageNav
    by_cases h : total > limit
    · simp only [if_pos h, decide_eq_true_eq]
      exact ⟨fun hp => ⟨hp, h⟩, fun hp => hp.1⟩
    · simp only [if_neg h]
      constructor
      · intro hfalse
        exact absurd hfalse (by simp)
      · intro hp
        exact absurd hp.2 h
  · unfold pageNav
    by_cases h : total > limit
    · simp [if_pos h]
    · simp only [if_neg h]
      constructor
      · intro hfalse
        exact absurd hfalse (by simp)
      · intro hn
        have hle : limit ≤ (page + 1) * limit := by
          calc limit = 1 * limit := (Nat.one_mul limit).symm
          _ ≤ (page + 1) * limit := Nat.mul_le_mul_right limit (by omega)
        omega

/-- C5 amended: in both paginated admin views the offered page starts at
offset `pageIndex × pageSize` and a next-page control is offered iff
`(pageIndex+1) × pageSize < total`; but a previous-page control is
offered iff `pageIndex > 0` *and* `total > pageSize` (the whole
navigation row is omitted whenever everything fits on one page). -/
theorem pagination_controls (total page : Nat) :
    (show_users_page_nav total page).offset = page * 15 ∧
    ((show_users_page_nav total page).hasPrev = true ↔ 0 < page ∧ 15 < total) ∧
    ((show_users_page_nav total page).hasNext = true ↔ (page + 1) * 15 < total) ∧
    (show_purchases_page_nav total page).offset = page * 10 ∧
    ((show_purchases_page_nav total page).hasPrev = true ↔ 0 < page ∧ 10 < total) ∧
    ((show_purchases_page_nav total page).hasNext = true ↔ (page + 1) * 10 < total) := by
  have hu := pageNav_spec 15 total page (by omega)
  have hp := pageNav_spec 10 total page (by omega)
  exact ⟨hu.1, hu.2.1, hu.2.2, hp.1, hp.2.1, hp.2.2⟩

/-! ## C6 -/

/-- C6: in the amount step of the add-purchase flow, any admin input that
does not parse as a number, or parses to a value ≤ 0, re-prompts: the
conversation stays in the awaiting-amount state with the accumulated
data untouched and the store (in particular the purchases table) is
unchanged. -/
theorem invalid_amount_reprompts (text : String) (uid : Int)
    (uname fn : Option String) (st : Store)
    (h : pyFloat (pyStrip text) = none ∨
      ∃ p, pyFloat (pyStrip text) = some p ∧ p.toRat ≤ 0) :
    purchase_amount_input true text uid uname fn st
      = (st, ConvState.waiting_amount uid uname fn, Reply.amountReprompt) := by
  rcases h with h | ⟨p, hp, hle⟩
  · simp [purchase_amount_input, h]
  · simp [purchase_amount_input, hp, hle]

/-- Witness for C6: the amount text `"abc"` re-prompts. -/
theorem invalid_amount_reprompts_witness :
    purchase_amount_input true "abc" 42 none none ⟨[], [], []⟩
      = (⟨[], [], []⟩, ConvState.waiting_amount 42 none none, Reply.amountReprompt) :=
  invalid_amount_reprompts "abc" 42 none none ⟨[], [], []⟩ (Or.inl (by decide))

/-! ## C7 -/

/-- C7: completing the add-purchase flow with an identifier that
resolves to an existing user, amount text `"15.5"` and comment `"-"`
walks `awaiting-user → awaiting-amount → awaiting-comment`, commits
exactly one purchase row for that user with amount `15.5` and an empty
comment, and returns the conversation to idle. -/
theorem purchase_flow_commits_one_row (st : Store) (now : Int)
    (idText : String) (u : UserRow)
    (hres : get_user_by_id_or_username st (pyStrip idText) = some u) :
    purchase_user_input true idText st
        = (st, ConvState.waiting_amount u.user_id u.username u.first_name,
           Reply.askAmount) ∧
    purchase_amount_input true "15.5" u.user_id u.username u.first_name st
        = (st, ConvState.waiting_comment u.user_id u.username u.first_name (31 / 2),
           Reply.askComment) ∧
    purchase_comment_input true now "-" u.user_id u.username u.first_name (31 / 2) st
        = ({ st with purchases := st.purchases ++
              [{ id := st.purchases.length + 1, user_id := u.user_id, amount := 31 / 2,
                 comment := "", created_at := now }] },
           ConvState.idle, Reply.purchaseAdded) := by
  refine ⟨?_, ?_, ?_⟩
  · simp [purchase_user_input, hres]
  · have hp : pyFloat (pyStrip "15.5") = some ⟨false, 155, 1⟩ := by decide
    have hv : PyFloat.toRat ⟨false, 155, 1⟩ = 31 / 2 := by
      norm_num [PyFloat.toRat]
    have hpos : ¬ ((31 : ℚ) / 2 ≤ 0) := by norm_num
    simp [purchase_amount_input, hp, hv, hpos]
  · have hdash : (pyStrip "-" == "-") = true := by decide
    simp [purchase_comment_input, add_purchase, hdash]

/-- Concrete user row used by several witnesses. -/
def sampleUser : UserRow :=
  { user_id := 42, username := some "bob", first_name := some "Bob",
    last_name := none, is_subscribed := false, registered_at := 0,
    ref_partner_code := none }

/-- Concrete store used by several witnesses. -/
def sampleStore : Store := ⟨[sampleUser], [], []⟩

/-- Witness for C7: identifier `"42"` resolves to the sample user. -/
theorem purchase_flow_commits_one_row_witness :
    purchase_user_input true "42" sampleStore
        = (sampleStore,
           ConvState.waiting_amount sampleUser.user_id sampleUser.username
             sampleUser.first_name, Reply.askAmount) ∧
    purchase_amount_input true "15.5" sampleUser.user_id sampleUser.username
        sampleUser.first_name sampleStore
        = (sampleStore,
           ConvState.waiting_comment sampleUser.user_id sampleUser.username
             sampleUser.first_name (31 / 2), Reply.askComment) ∧
    purchase_comment_input true 99 "-" sampleUser.user_id sampleUser.username
        sampleUser.first_name (31 / 2) sampleStore
        = ({ sampleStore with purchases := sampleStore.purchases ++
              [{ id := sampleStore.purchases.length + 1, user_id := sampleUser.user_id,
                 amount := 31 / 2, comment := "", created_at := 99 }] },
           ConvState.idle, Reply.purchaseAdded) :=
  purchase_flow_commits_one_row sampleStore 99 "42" sampleUser (by decide)

/-! ## C8 -/

theorem partners_add_user (st : Store) (now uid : Int)
    (un fn ln ref : Option String) :
    (add_user st now uid un fn ln ref).partners = st.partners := by
  unfold add_user
  split <;> rfl

theorem partners_update_subscription (st : Store) (uid : Int) (b : Bool) :
    (update_subscription st uid b).partners = st.partners := rfl

/-- C8: a partner row whose linked account id is already a nonzero value
is never re-linked: running the whole `/start` pipeline (which performs
the lazy link `update_partner_user_id` on every contact that has a
handle) leaves that row untouched, because the `UPDATE` is guarded by
`user_id = 0 OR user_id IS NULL`. -/
theorem partner_link_never_overwritten (st : Store) (now uid : Int)
    (un fn ln : Option String) (text : String) (oracle : Option String)
    (i : Nat) (p : PartnerRow) (k : Int)
    (hp : st.partners[i]? = some p) (hk : p.user_id = some k) (hnz : k ≠ 0) :
    (cmd_start st now uid un fn ln text oracle).partners[i]? = some p := by
  have hcond : ∀ uname : String,
      (p.username == uname && (p.user_id == some 0 || p.user_id == none)) = false := by
    intro uname
    rw [hk]
    have h1 : ((some k : Option Int) == some 0) = false :=
      beq_eq_false_iff_ne.mpr (by simpa using hnz)
    have h2 : ((some k : Option Int) == none) = false :=
      beq_eq_false_iff_ne.mpr (by simp)
    rw [h1, h2]
    simp
  unfold cmd_start
  rw [partners_update_subscription]
  cases un with
  | none =>
    simp only [cmd_start_registration]
    rw [partners_add_user]
    exact hp
  | some uname =>
    simp only [cmd_start_registration, update_partner_user_id]
    rw [partners_add_user, List.getElem?_map, hp]
    simp only [Option.map_some']
    rw [hcond uname]
    simp

/-- Concrete partner row used by witnesses: already linked to account 5. -/
def samplePartner : PartnerRow :=
  { partner_code := "CODE1234", username := "alice", user_id := some 5, created_at := 0 }

/-- Witness for C8: a `/start` from account 777 with the partner's own
handle does not re-link the already-linked sample partner. -/
theorem partner_link_never_overwritten_witness :
    (cmd_start ⟨[], [samplePartner], []⟩ 10 777 (some "alice") none none "/start"
        none).partners[0]? = some samplePartner :=
  partner_link_never_overwritten ⟨[], [samplePartner], []⟩ 10 777 (some "alice") none none
    "/start" none 0 samplePartner 5 (by decide) (by decide) (by decide)

/-! ## C9 -/

/-- C9: the subscription check returns `true` exactly for the three
active-membership statuses — an oracle failure (`none`) or any other
status yields `false` instead of an error — and the boolean verdict
overwrites the user row's subscription flag on every check. -/
theorem subscription_verdict_and_overwrite (st : Store) (uid : Int)
    (oracle : Option String) :
    ((check_subscription_callback st uid oracle).1 = true ↔
      oracle = some "member" ∨ oracle = some "administrator" ∨ oracle = some "creator") ∧
    findUser (check_subscription_callback st uid oracle).2 uid
      = (findUser st uid).map (fun u =>
          { u with is_subscribed := (check_subscription_callback st uid oracle).1 }) := by
  constructor
  · cases oracle with
    | none => simp [check_subscription_callback, check_subscription]
    | some s =>
      simp only [check_subscription_callback, check_subscription, Bool.or_eq_true,
        beq_iff_eq, Option.some.injEq]
      tauto
  · simp only [check_subscription_callback, update_subscription, findUser]
    rw [find?_map_comm _ _ _ (by
      intro a
      by_cases ha : (a.user_id == uid) = true
      · rw [if_pos ha]
      · rw [if_neg ha])]
    cases hfind : st.users.find? (fun u => u.user_id == uid) with
    | none => rfl
    | some u =>
      have hu : (u.user_id == uid) = true := by
        have h' := List.find?_some hfind
        simpa using h'
      have he : u.user_id = uid := by simpa using hu
      simp [he]

/-! ## C10 -/

theorem isPySpace_eq_false_of_digit {c : Char} (h : isDigitChar c = true) :
    isPySpace c = false := by
  simp only [isDigitChar, Bool.and_eq_true, decide_eq_true_eq] at h
  simp only [isPySpace, Bool.or_eq_false_iff, beq_eq_false_iff_ne, ne_eq]
  omega

theorem digit_ne_at {c : Char} (h : isDigitChar c = true) : (c != '@') = true := by
  simp only [bne_iff_ne, ne_eq]
  intro hc
  subst hc
  exact absurd h (by decide)

theorem dropWhile_eq_self_of_all {p : Char → Bool} (l : List Char)
    (h : l.all (fun c => !p c) = true) : l.dropWhile p = l := by
  cases l with
  | nil => rfl
  | cons a l =>
    simp only [List.all_cons, Bool.and_eq_true, Bool.not_eq_true'] at h
    rw [List.dropWhile_cons]
    simp [h.1]

theorem stripChars_eq_self (l : List Char)
    (h : l.all (fun c => !isPySpace c) = true) : stripChars l = l := by
  have hrev : l.reverse.all (fun c => !isPySpace c) = true := by
    simp only [List.all_eq_true] at h ⊢
    intro c hc
    exact h c (List.mem_reverse.mp hc)
  unfold stripChars rdropSpaces
  rw [dropWhile_eq_self_of_all l h, dropWhile_eq_self_of_all l.reverse hrev,
    List.reverse_reverse]

/-- C10: in the purchase flow's user-resolution step, an identifier of
the shape `'@'` followed by digits is never resolved by numeric account
id: `int()` rejects the at sign, and only then is the at sign stripped,
so the lookup runs purely against the `username` column — it matches a
user whose handle equals the digit string and otherwise fails, even when
a user with that numeric id exists. -/
theorem at_digits_resolves_only_by_handle (st : Store) (ds : List Char)
    (hne : ds ≠ []) (hdig : ds.all isDigitChar = true) :
    get_user_by_id_or_username st (String.mk ('@' :: ds))
      = st.users.find? (fun u => u.username == some (String.mk ds)) := by
  have hnospace : ('@' :: ds).all (fun c => !isPySpace c) = true := by
    simp only [List.all_cons, Bool.and_eq_true]
    refine ⟨by decide, ?_⟩
    simp only [List.all_eq_true] at hdig ⊢
    intro c hc
    simp [isPySpace_eq_false_of_digit (hdig c hc)]
  have hstrip : stripChars ('@' :: ds) = '@' :: ds := stripChars_eq_self _ hnospace
  have hint : pyInt (String.mk ('@' :: ds)) = none := by
    show pyIntChars ('@' :: ds) = none
    unfold pyIntChars
    rw [hstrip]
    have hsign : signSplit ('@' :: ds) = (false, '@' :: ds) := rfl
    rw [hsign]
    simp only [List.isEmpty_cons, List.all_cons]
    rw [show isDigitChar '@' = false from by decide]
    simp
  have hdrop : dropAtSigns (String.mk ('@' :: ds)) = String.mk ds := by
    show String.mk (('@' :: ds).filter (fun c => c != '@')) = String.mk ds
    congr 1
    rw [List.filter_cons, if_neg (by decide)]
    refine List.filter_eq_self.mpr ?_
    intro a ha
    simp only [List.all_eq_true] at hdig
    exact digit_ne_at (hdig a ha)
  unfold get_user_by_id_or_username
  rw [hint, hdrop]

/-- Witness for C10: `"@42"` does not resolve by numeric id in the
sample store even though user 42 exists there. -/
theorem at_digits_resolves_only_by_handle_witness :
    get_user_by_id_or_username sampleStore (String.mk ['@', '4', '2'])
      = sampleStore.users.find? (fun u => u.username == some (String.mk ['4', '2'])) :=
  at_digits_resolves_only_by_handle sampleStore ['4', '2'] (by decide) (by decide)
